import Mathlib

/-!
Shallow embedding of the report ingestion pipeline of `reporter/server.py`:
the `report` request handler (classification, validation, noise filtering,
metadata extraction) and the SQL `INSERT` statement it executes (dimension
upserts plus fact insert), together with the auxiliary `not_found` and
`robots` handlers.

Python values flowing through the handler are JSON-compatible, so they are
embedded as a `Json` inductive; Python truthiness, `dict.get` (which raises
`AttributeError` on non-dict receivers), `str.split`, substring tests and
`codecs.decode` are embedded explicitly.  Exceptions escaping the handler
are modelled by the `Except` error branch (the framework turns them into an
HTTP 500; they are observably distinct from every `text(...)` response the
handler builds itself).
-/

/-- Exceptions that can escape the embedded handler. -/
inductive PyError where
  | attributeError
  | indexError
  | lookupError
  | interfaceError
  | operationalError
deriving DecidableEq

/-- JSON-compatible Python values.  An `obj` models a Python dict produced by
the JSON parser or built by the handler; its keys are distinct, and lookups
take the first match. -/
inductive Json where
  | null
  | bool (b : Bool)
  | num (n : Int)
  | str (s : String)
  | arr (xs : List Json)
  | obj (fields : List (String × Json))

/-- Python truthiness of a JSON value (`bool(x)`): `None`, `False`, `0`, the
empty string, the empty list and the empty dict are falsy. -/
def pyTruthy : Json → Bool
  | .null => false
  | .bool b => b
  | .num n => n != 0
  | .str s => s != ""
  | .arr xs => !xs.isEmpty
  | .obj fs => !fs.isEmpty

/-- Python `type(x) is dict`. -/
def isDict : Json → Bool
  | .obj _ => true
  | _ => false

/-- Python `x.get(k)`: on a dict, the value or `None` (here `none`); on any
other receiver it raises `AttributeError`. -/
def pyGet (v : Json) (k : String) : Except PyError (Option Json) :=
  match v with
  | .obj fs => .ok (List.lookup k fs)
  | _ => .error .attributeError

/-- Python truthiness of a `dict.get` result (`None` is falsy). -/
def truthyOpt (o : Option Json) : Bool :=
  match o with
  | none => false
  | some v => pyTruthy v

/-- Python `x == s` for a `dict.get` result against a string literal: true
exactly when the value is that string (`None` and non-strings compare
unequal). -/
def jeqStr (o : Option Json) (s : String) : Bool :=
  match o with
  | some (.str t) => t == s
  | _ => false

/-- Python `x in (s1, ..., sk)` for a `dict.get` result against a tuple of
string literals. -/
def jstrIn (o : Option Json) (ss : List String) : Bool :=
  match o with
  | some (.str t) => ss.contains t
  | _ => false

/-- Python `str.split` on the single separator character `'='`, embedded on
the character list. -/
def charSplitEq : List Char → List (List Char)
  | [] => [[]]
  | c :: rest =>
    match charSplitEq rest with
    | [] => if c = '=' then [[], []] else [[c]]
    | h :: t => if c = '=' then [] :: h :: t else (c :: h) :: t

/-- Python `ct.split('=')`. -/
def pySplitEq (s : String) : List String :=
  (charSplitEq s.toList).map (fun l => String.mk l)

/-- Helper for the Python substring test: does the needle occur in the
haystack character list? -/
def hasSub (needle : List Char) : List Char → Bool
  | [] => needle.isEmpty
  | c :: rest => needle.isPrefixOf (c :: rest) || hasSub needle rest

/-- Python `needle in haystack` on strings (substring containment). -/
def pyInStr (needle hay : String) : Bool :=
  hasSub needle.toList hay.toList

/-- Modelled from Python stdlib behaviour used by the source: codec names
`codecs.decode` accepts.  The source passes whatever text follows the first
`=` of the Content-Type header; only a known codec name decodes, any other
name raises `LookupError` even with the `replace` error handler. -/
def knownCodec (c : String) : Bool :=
  ["utf-8", "utf8", "UTF-8", "ascii", "us-ascii", "latin-1", "latin1",
   "iso-8859-1", "utf-16", "utf-16-le", "utf-16-be"].contains c

/-- Best-effort text for a decoded body.  The exact text is not load-bearing
for any claim; what matters is that decoding with the `replace` handler is
total for a known codec. -/
def decodedText (body : List Nat) : String :=
  String.mk (body.map (fun b => Char.ofNat (b % 256)))

/-- Modelled from Python stdlib behaviour used by the source:
`codecs.decode(body, codec, 'replace')`.  With the `replace` error handler a
known codec never raises on any byte sequence; an unknown codec name raises
`LookupError` before any byte is examined. -/
def codecsDecode (body : List Nat) (codec : String) : Except PyError String :=
  if knownCodec codec then .ok (decodedText body) else .error .lookupError

/-- HTTP method of a request reaching the `report` handler. -/
inductive HMethod where
  | get
  | post
deriving DecidableEq

/-- Inbound request descriptor: method, transport-level peer address
(`request.ip`), headers as a flat map, raw body bytes, query parameters
(`request.args`, a dict of string lists), and `json` — the result of parsing
the body as JSON.  `json = none` models `request.json` being `None` (empty
or unparseable body, per the framework contract the spec states). -/
structure Request where
  method : HMethod
  ip : String
  headers : List (String × String)
  body : List Nat
  args : List (String × List String)
  json : Option Json

/-- Header lookup, `request.headers.get(k)`. -/
def hget (hs : List (String × String)) (k : String) : Option String :=
  List.lookup k hs

/-- An HTTP response as built by `sanic.response.text`: status, body, and
exactly the custom headers passed to `text` (none when the `headers`
argument is omitted). -/
structure Response where
  status : Nat
  body : String
  headers : List (String × String)
deriving DecidableEq

/-- Lines 47-50: the HEADERS constant attached to some responses. -/
def HEADERS : List (String × String) :=
  [("X-Robots-Tag", "noindex,nofollow,noarchive"),
   ("Content-Security-Policy", "default-src \x27none\x27")]

/-- Line 94: `text('Not found', status=404, headers=HEADERS)`. -/
def notFoundResp : Response :=
  { status := 404, body := "Not found", headers := HEADERS }

/-- Line 100: the `robots` handler response, with HEADERS. -/
def robotsResp : Response :=
  { status := 200, body := "User-agent: *\nDisallow: /", headers := HEADERS }

/-- Line 131: `text('No report', status=400)` — no custom headers. -/
def noReportResp : Response :=
  { status := 400, body := "No report", headers := [] }

/-- Line 152: `text('Unsupported report', status=400)` — no custom headers. -/
def unsupportedResp : Response :=
  { status := 400, body := "Unsupported report", headers := [] }

/-- Lines 158 and 179: `text('', status=204)` — no custom headers. -/
def noContentResp : Response :=
  { status := 204, body := "", headers := [] }

/-- Lines 109-111: `client_ip = request.ip`, overridden by a truthy
`X-Real-Ip` header. -/
def clientIpOf (req : Request) : String :=
  match hget req.headers "X-Real-Ip" with
  | some s => if s = "" then req.ip else s
  | none => req.ip

/-- Line 113: the probe tags. -/
def probeTags : List String := ["magick", "xxe", "xss"]

/-- Lines 116-120: charset extraction.  When the Content-Type header is
truthy and contains the substring `charset`, the text after the first `=` is
taken (`ct.split('=')[1]`, raising `IndexError` when there is no `=`);
otherwise `utf-8`. -/
def charsetOf (hs : List (String × String)) : Except PyError String :=
  match hget hs "Content-Type" with
  | some ct =>
    if ct ≠ "" && pyInStr "charset" ct then
      match (pySplitEq ct).get? 1 with
      | some s => .ok s
      | none => .error .indexError
    else .ok "utf-8"
  | none => .ok "utf-8"

/-- The request headers as a flat JSON map, `dict(request.headers)`. -/
def headersJson (hs : List (String × String)) : Json :=
  .obj (hs.map (fun p => (p.1, .str p.2)))

/-- The query parameters as a JSON value, `request.args` (dict of lists). -/
def argsJson (args : List (String × List String)) : Json :=
  .obj (args.map (fun p => (p.1, .arr (p.2.map .str))))

/-- Lines 113-127: the classifier.  For a probe tag it builds the synthetic
report dict (headers, type, decoded POST body or GET query parameters) and
never reads `request.json`; for any other tag the document is the JSON parse
of the body (`None` becoming the falsy `null`). -/
def classify (req : Request) (tag : String) : Except PyError Json :=
  if probeTags.contains tag then
    match charsetOf req.headers with
    | .error e => .error e
    | .ok cs =>
      match (match req.method with
             | .post => Except.map Json.str (codecsDecode req.body cs)
             | .get => .ok (argsJson req.args)) with
      | .error e => .error e
      | .ok body =>
        .ok (.obj [("headers", headersJson req.headers),
                   ("type", .str tag),
                   ("body", body)])
  else
    .ok (match req.json with | some v => v | none => .null)

/-- Lines 134-151: the validator.  Python builds the tuples passed to
`all`/`any` eagerly, so every `data.get(...)` call runs — on a non-dict
`data` the first one raises `AttributeError` before the `type(data) is dict`
guard can reject.  (The source calls `data.get('type')` once per membership
test; the calls are pure, so one shared call is observationally equal.) -/
def validate (data : Json) : Except PyError Bool :=
  match pyGet data "type" with
  | .error e => .error e
  | .ok t =>
    match pyGet data "csp-report" with
    | .error e => .error e
    | .ok csp =>
      match pyGet data "validated-certificate-chain" with
      | .error e => .error e
      | .ok vcc =>
        match pyGet data "expect-ct-report" with
        | .error e => .error e
        | .ok ect =>
          .ok (isDict data &&
               (jstrIn t probeTags ||
                jstrIn t ["deprecation", "intervention", "crash"] ||
                jeqStr t "network-error" ||
                jeqStr t "feature-policy-violation" ||
                truthyOpt csp ||
                truthyOpt vcc ||
                truthyOpt ect))

/-- Lines 155-158: the noise filter.  When `data.get('csp-report')` is
truthy, both `data.get('csp-report').get(...)` calls run (the tuple passed
to `any` is built eagerly), raising `AttributeError` when the value is not a
dict. -/
def noiseFilter (data : Json) : Except PyError Bool :=
  match pyGet data "csp-report" with
  | .error e => .error e
  | .ok csp =>
    if truthyOpt csp then
      match csp with
      | some v =>
        match pyGet v "blocked-uri" with
        | .error e => .error e
        | .ok bu =>
          match pyGet v "source-file" with
          | .error e => .error e
          | .ok sf => .ok (jeqStr bu "chrome-extension" || jeqStr sf "about")
      | none => .ok false
    else .ok false

/-- Parameters bound into the SQL INSERT (lines 160-165). -/
structure InsertParams where
  data : Json
  tag : String
  ip : String
  ua : Option String

/-- Lines 160-165: the `params` dict. -/
def mkParams (req : Request) (tag : String) (data : Json) (clientIp : String) :
    InsertParams :=
  { data := data, tag := tag, ip := clientIp,
    ua := hget req.headers "User-Agent" }

/-- One row of `reporting_api_report`. -/
structure FactRow where
  data : Json
  date : Nat
  ip : String
  user_agent_id : Nat
  tag_id : Nat

/-- Database state: the two dimension tables (id, unique value — the user
agent column is nullable, and NULLs never conflict), the fact table, and the
id sequences. -/
structure DbState where
  uas : List (Nat × Option String)
  tags : List (Nat × String)
  facts : List FactRow
  nextUa : Nat
  nextTag : Nat

/-- The `ins_ua` CTE of the INSERT statement: insert the user agent, and on
a unique-constraint conflict rewrite the same value in place (leaving the
row and its id unchanged), returning the row id either way.  A NULL user
agent never conflicts, so it always inserts a fresh row. -/
def upsertUa (st : DbState) (ua : Option String) : Nat × DbState :=
  match ua with
  | none =>
    (st.nextUa,
     { st with uas := st.uas ++ [(st.nextUa, none)], nextUa := st.nextUa + 1 })
  | some s =>
    match st.uas.find? (fun r => r.2 == some s) with
    | some r => (r.1, st)
    | none =>
      (st.nextUa,
       { st with uas := st.uas ++ [(st.nextUa, some s)],
                 nextUa := st.nextUa + 1 })

/-- The `ins_tag` CTE: same upsert pattern keyed by the tag string. -/
def upsertTag (st : DbState) (t : String) : Nat × DbState :=
  match st.tags.find? (fun r => r.2 == t) with
  | some r => (r.1, st)
  | none =>
    (st.nextTag,
     { st with tags := st.tags ++ [(st.nextTag, t)],
               nextTag := st.nextTag + 1 })

/-- Lines 23-45: the whole INSERT statement — both dimension upserts plus
one fact row referencing the two returned ids, committed atomically. -/
def runInsert (st : DbState) (p : InsertParams) (now : Nat) : DbState :=
  let r1 := upsertUa st p.ua
  let r2 := upsertTag r1.2 p.tag
  { r2.2 with
    facts := r2.2.facts ++
      [{ data := p.data, date := now, ip := p.ip,
         user_agent_id := r1.1, tag_id := r2.1 }] }

/-- Connection handle behaviour: whether `cursor()` succeeds and whether
`execute`/`commit` succeed (a connection-level fault during execution is
modelled as `operationalError`; the distinction is immaterial because no
handler code catches anything around `execute`). -/
structure Conn where
  cursorOk : Bool
  execOk : Bool
deriving DecidableEq

/-- Lines 167-177: cursor acquisition with one reconnect on
`InterfaceError`, then statement execution and commit.  Only the
`database.cursor()` call is guarded; a fault raised by `execute` (or
`commit`) propagates uncaught. -/
def persistStep (db fresh : Conn) (st : DbState) (p : InsertParams)
    (now : Nat) : Except PyError (Conn × DbState) :=
  match (if db.cursorOk then Except.ok db
         else if fresh.cursorOk then Except.ok fresh
         else Except.error PyError.interfaceError :
         Except PyError Conn) with
  | .error e => .error e
  | .ok conn =>
    if conn.execOk then .ok (conn, runInsert st p now)
    else .error .operationalError

/-- Lines 105-179: the `report` handler.  `db` is the current module-level
connection, `fresh` the connection a reconnect would return, `st` the
database state, `now` the persistence layer's clock. -/
def reportHandler (req : Request) (tag : String) (db fresh : Conn)
    (st : DbState) (now : Nat) : Except PyError (Response × Conn × DbState) :=
  match classify req tag with
  | .error e => .error e
  | .ok data =>
    if pyTruthy data = false then .ok (noReportResp, db, st)
    else
      match validate data with
      | .error e => .error e
      | .ok false => .ok (unsupportedResp, db, st)
      | .ok true =>
        match noiseFilter data with
        | .error e => .error e
        | .ok true => .ok (noContentResp, db, st)
        | .ok false =>
          match persistStep db fresh st (mkParams req tag data (clientIpOf req)) now with
          | .error e => .error e
          | .ok r => .ok (noContentResp, r.1, r.2)

/-- Acceptance predicate transcribed from the specification's words (section
4.2): top level must be a JSON object and at least one of the seven
discriminator conditions must hold.  Kept separate from `validate` (the code
transcription) so the two can be compared. -/
def specAccepts : Json → Bool
  | .obj fs =>
      jstrIn (List.lookup "type" fs) probeTags ||
      jstrIn (List.lookup "type" fs) ["deprecation", "intervention", "crash"] ||
      jeqStr (List.lookup "type" fs) "network-error" ||
      jeqStr (List.lookup "type" fs) "feature-policy-violation" ||
      truthyOpt (List.lookup "csp-report" fs) ||
      truthyOpt (List.lookup "validated-certificate-chain" fs) ||
      truthyOpt (List.lookup "expect-ct-report" fs)
  | _ => false

/-- The parsed document a non-probe request carries (`None` as `null`). -/
def parsedDoc (j : Option Json) : Json :=
  match j with
  | some v => v
  | none => .null

/-! Shared concrete fixtures for witnesses and counterexamples. -/

/-- A connection on which both cursor acquisition and execution succeed. -/
def connLive : Conn := { cursorOk := true, execOk := true }

/-- A connection whose cursor is fine but whose execute raises a
connection-level fault. -/
def connExecFault : Conn := { cursorOk := true, execOk := false }

/-- An empty database. -/
def emptyDb : DbState := { uas := [], tags := [], facts := [], nextUa := 1, nextTag := 1 }

/-- A well-formed Network Error Logging report POSTed to tag `aaa`. -/
def nelReq : Request :=
  { method := .post, ip := "9.9.9.9", headers := [("User-Agent", "UA1")],
    body := [], args := [],
    json := some (.obj [("type", .str "network-error")]) }

/-- A request posting a JSON array: a truthy non-object document. -/
def arrReq : Request := { nelReq with json := some (.arr [.num 1]) }

/-- A request posting an object with an unrecognized type. -/
def bogusReq : Request :=
  { nelReq with json := some (.obj [("type", .str "bogus")]) }

/-- A request posting the empty JSON object. -/
def emptyObjReq : Request := { nelReq with json := some (.obj []) }

/-- A request with an empty or unparseable body. -/
def emptyBodyReq : Request := { nelReq with json := none }

/-- An accepted CSP report whose csp-report value is a number. -/
def cspNumReq : Request :=
  { nelReq with json := some (.obj [("csp-report", .num 5)]) }

/-- An accepted CSP report whose csp-report value is a string. -/
def cspStrReq : Request :=
  { nelReq with json := some (.obj [("csp-report", .str "x")]) }

/-- A known-noise CSP report: blocked-uri is the literal chrome-extension. -/
def noiseDoc : Json :=
  .obj [("csp-report", .obj [("blocked-uri", .str "chrome-extension")])]

/-- The request posting `noiseDoc`. -/
def noiseReq : Request := { nelReq with json := some noiseDoc }

/-- A probe POST whose Content-Type mentions charset but has no equals
sign, so `ct.split('=')[1]` raises IndexError. -/
def csReq : Request :=
  { nelReq with headers := [("Content-Type", "text/plain; charset")] }

/-- A probe GET request carrying query parameters. -/
def probeReq : Request :=
  { method := .get, ip := "8.8.8.8", headers := [("User-Agent", "UA2")],
    body := [], args := [("q", ["1"])], json := none }

/-- A request arriving behind a proxy that sets X-Real-Ip. -/
def xrReq : Request :=
  { nelReq with headers := [("X-Real-Ip", "1.2.3.4"), ("User-Agent", "UA1")] }

/-- An Expect-CT report document. -/
def ectDoc : Json := .obj [("expect-ct-report", .obj [("k", .str "v")])]

/-- The request posting `ectDoc`. -/
def ectReq : Request := { nelReq with json := some ectDoc }

/-- Parameters for a bare persistence call. -/
def p0 : InsertParams :=
  { data := Json.null, tag := "aaa", ip := "9.9.9.9", ua := some "UA1" }

/-- A connection whose cursor acquisition raises InterfaceError. -/
def connCursorFault : Conn := { cursorOk := false, execOk := true }

/-! Helper lemmas shared by the claim theorems. -/

/-- On a dict, the validator returns exactly the specification's acceptance
predicate. -/
theorem validate_obj (fs : List (String × Json)) :
    validate (.obj fs) = .ok (specAccepts (.obj fs)) := by
  simp [validate, pyGet, specAccepts, isDict]

/-- On a non-dict, the validator raises `AttributeError`: the tuples handed
to `all`/`any` are built eagerly, so `data.get` runs before the dict guard
can reject. -/
theorem validate_nondict (data : Json) (h : isDict data = false) :
    validate data = .error .attributeError := by
  cases data <;> simp_all [validate, pyGet, isDict]

/-- For a non-probe tag, the classifier returns the parsed document. -/
theorem classify_nonprobe (req : Request) (tag : String)
    (h : probeTags.contains tag = false) :
    classify req tag = .ok (parsedDoc req.json) := by
  unfold classify parsedDoc
  rw [h]
  simp

theorem upsertUa_facts (st : DbState) (u : Option String) :
    (upsertUa st u).2.facts = st.facts := by
  cases u with
  | none => simp [upsertUa]
  | some s =>
    simp only [upsertUa]
    cases st.uas.find? (fun r => r.2 == some s) <;> simp

theorem upsertTag_facts (st : DbState) (t : String) :
    (upsertTag st t).2.facts = st.facts := by
  simp only [upsertTag]
  cases st.tags.find? (fun r => r.2 == t) <;> simp

theorem upsertTag_uas (st : DbState) (t : String) :
    (upsertTag st t).2.uas = st.uas := by
  simp only [upsertTag]
  cases st.tags.find? (fun r => r.2 == t) <;> simp

/-- The fact row appended by one execution of the INSERT statement. -/
theorem runInsert_facts (st : DbState) (p : InsertParams) (now : Nat) :
    (runInsert st p now).facts =
      st.facts ++
        [{ data := p.data, date := now, ip := p.ip,
           user_agent_id := (upsertUa st p.ua).1,
           tag_id := (upsertTag (upsertUa st p.ua).2 p.tag).1 }] := by
  simp [runInsert, upsertTag_facts, upsertUa_facts]

theorem runInsert_uas (st : DbState) (p : InsertParams) (now : Nat) :
    (runInsert st p now).uas = (upsertUa st p.ua).2.uas := by
  simp [runInsert, upsertTag_uas]

/-- Reduction of the handler for non-probe tags. -/
theorem reportHandler_nonprobe (req : Request) (tag : String) (db fresh : Conn)
    (st : DbState) (now : Nat) (h : probeTags.contains tag = false) :
    reportHandler req tag db fresh st now =
      (if pyTruthy (parsedDoc req.json) = false then .ok (noReportResp, db, st)
       else
         match validate (parsedDoc req.json) with
         | .error e => .error e
         | .ok false => .ok (unsupportedResp, db, st)
         | .ok true =>
           match noiseFilter (parsedDoc req.json) with
           | .error e => .error e
           | .ok true => .ok (noContentResp, db, st)
           | .ok false =>
             match persistStep db fresh st
                 (mkParams req tag (parsedDoc req.json) (clientIpOf req)) now with
             | .error e => .error e
             | .ok r => .ok (noContentResp, r.1, r.2)) := by
  unfold reportHandler
  rw [classify_nonprobe req tag h]

/-- Reduction of the handler once classification has produced a document. -/
theorem reportHandler_classified (req : Request) (tag : String)
    (db fresh : Conn) (st : DbState) (now : Nat) (data : Json)
    (hc : classify req tag = .ok data) :
    reportHandler req tag db fresh st now =
      (if pyTruthy data = false then .ok (noReportResp, db, st)
       else
         match validate data with
         | .error e => .error e
         | .ok false => .ok (unsupportedResp, db, st)
         | .ok true =>
           match noiseFilter data with
           | .error e => .error e
           | .ok true => .ok (noContentResp, db, st)
           | .ok false =>
             match persistStep db fresh st
                 (mkParams req tag data (clientIpOf req)) now with
             | .error e => .error e
             | .ok r => .ok (noContentResp, r.1, r.2)) := by
  unfold reportHandler
  rw [hc]

/-- Successful cursor acquisition and execution on the current connection. -/
theorem persistStep_ok (db fresh : Conn) (st : DbState) (p : InsertParams)
    (now : Nat) (hc : db.cursorOk = true) (he : db.execOk = true) :
    persistStep db fresh st p now = .ok (db, runInsert st p now) := by
  simp [persistStep, hc, he]

/-- A successful lookup means the dict is nonempty, hence truthy. -/
theorem pyTruthy_of_lookup {fs : List (String × Json)} {k : String} {v : Json}
    (h : List.lookup k fs = some v) : pyTruthy (.obj fs) = true := by
  cases fs with
  | nil => simp [List.lookup] at h
  | cons a l => simp [pyTruthy]

/-- A true string comparison pins the looked-up value. -/
theorem jeqStr_true {o : Option Json} {s : String} (h : jeqStr o s = true) :
    o = some (.str s) := by
  match o, h with
  | some (.str t), h => simp [jeqStr] at h; rw [h]

/-- The noise filter on a CSP report whose nested value is a truthy dict. -/
theorem noiseFilter_obj (fs cfs : List (String × Json))
    (hcsp : List.lookup "csp-report" fs = some (.obj cfs))
    (hne : pyTruthy (Json.obj cfs) = true) :
    noiseFilter (.obj fs) =
      .ok (jeqStr (List.lookup "blocked-uri" cfs) "chrome-extension" ||
           jeqStr (List.lookup "source-file" cfs) "about") := by
  simp [noiseFilter, pyGet, hcsp, truthyOpt, hne]

/-- The noise filter is skipped when the csp-report value is falsy. -/
theorem noiseFilter_falsy (fs : List (String × Json)) (csp : Json)
    (hcsp : List.lookup "csp-report" fs = some csp)
    (hf : pyTruthy csp = false) :
    noiseFilter (.obj fs) = .ok false := by
  simp [noiseFilter, pyGet, hcsp, truthyOpt, hf]

/-- The noise filter raises on a truthy non-dict csp-report value. -/
theorem noiseFilter_nondict (fs : List (String × Json)) (csp : Json)
    (hcsp : List.lookup "csp-report" fs = some csp)
    (ht : pyTruthy csp = true) (hd : isDict csp = false) :
    noiseFilter (.obj fs) = .error .attributeError := by
  cases csp <;> simp_all [noiseFilter, pyGet, truthyOpt, isDict]

/-- The needle charset never occurs in the empty string. -/
theorem pyInStr_charset_ne_empty {ct : String}
    (h : pyInStr "charset" ct = true) : ct ≠ "" := by
  intro he
  subst he
  simp [pyInStr, hasSub, List.isEmpty] at h

/-- Re-running the user-agent upsert for an already-seen value is a no-op
returning the same identifier. -/
theorem upsertUa_idem (st : DbState) (s : String) :
    upsertUa (upsertUa st (some s)).2 (some s) = upsertUa st (some s) := by
  cases h : st.uas.find? (fun r => r.2 == some s) with
  | some r => simp [upsertUa, h]
  | none =>
    simp only [upsertUa, h]
    simp [List.find?_append, h]

/-- Re-running the tag upsert for an already-seen tag is a no-op returning
the same identifier. -/
theorem upsertTag_idem (st : DbState) (t : String) :
    upsertTag (upsertTag st t).2 t = upsertTag st t := by
  cases h : st.tags.find? (fun r => r.2 == t) with
  | some r => simp [upsertTag, h]
  | none =>
    simp only [upsertTag, h]
    simp [List.find?_append, h]

/-- After one upsert of a value present at most once, exactly one dimension
row holds that value. -/
theorem upsertUa_count (st : DbState) (s : String)
    (h : (st.uas.filter (fun r => r.2 == some s)).length ≤ 1) :
    ((upsertUa st (some s)).2.uas.filter (fun r => r.2 == some s)).length
      = 1 := by
  cases hf : st.uas.find? (fun r => r.2 == some s) with
  | some r =>
    have hmem : r ∈ st.uas := List.mem_of_find?_eq_some hf
    have hp := List.find?_some hf
    have hmf : r ∈ st.uas.filter (fun x => x.2 == some s) :=
      List.mem_filter.2 ⟨hmem, hp⟩
    have h1 : 0 < (st.uas.filter (fun x => x.2 == some s)).length :=
      List.length_pos.2 (List.ne_nil_of_mem hmf)
    have h2 : (st.uas.filter (fun x => x.2 == some s)).length = 1 :=
      le_antisymm h h1
    simpa [upsertUa, hf] using h2
  | none =>
    have hnil : st.uas.filter (fun r => r.2 == some s) = [] := by
      rw [List.filter_eq_nil_iff]
      exact List.find?_eq_none.mp hf
    simp [upsertUa, hf, List.filter_append, hnil]

/-- After one tag upsert of a value present at most once, exactly one
dimension row holds that tag. -/
theorem upsertTag_count (st : DbState) (t : String)
    (h : (st.tags.filter (fun r => r.2 == t)).length ≤ 1) :
    ((upsertTag st t).2.tags.filter (fun r => r.2 == t)).length = 1 := by
  cases hf : st.tags.find? (fun r => r.2 == t) with
  | some r =>
    have hmem : r ∈ st.tags := List.mem_of_find?_eq_some hf
    have hp := List.find?_some hf
    have hmf : r ∈ st.tags.filter (fun x => x.2 == t) :=
      List.mem_filter.2 ⟨hmem, hp⟩
    have h1 : 0 < (st.tags.filter (fun x => x.2 == t)).length :=
      List.length_pos.2 (List.ne_nil_of_mem hmf)
    have h2 : (st.tags.filter (fun x => x.2 == t)).length = 1 :=
      le_antisymm h h1
    simpa [upsertTag, hf] using h2
  | none =>
    have hnil : st.tags.filter (fun r => r.2 == t) = [] := by
      rw [List.filter_eq_nil_iff]
      exact List.find?_eq_none.mp hf
    simp [upsertTag, hf, List.filter_append, hnil]

/-- Upserting into any state carrying the post-upsert dimension table reuses
the same identifier and leaves the state unchanged. -/
theorem upsertUa_stable (st st2 : DbState) (s : String)
    (hu : st2.uas = (upsertUa st (some s)).2.uas) :
    (upsertUa st2 (some s)).1 = (upsertUa st (some s)).1 ∧
    (upsertUa st2 (some s)).2 = st2 := by
  cases hf : st.uas.find? (fun r => r.2 == some s) with
  | some r =>
    have h2 : st2.uas.find? (fun r => r.2 == some s) = some r := by
      rw [hu]; simp [upsertUa, hf]
    simp [upsertUa, hf, h2]
  | none =>
    have h2 : st2.uas.find? (fun r => r.2 == some s) =
        some (st.nextUa, some s) := by
      rw [hu]; simp [upsertUa, hf, List.find?_append]
    simp [upsertUa, hf, h2]

/-- Claim C1 (amended).  For a non-probe tag whose body parses to a truthy
JSON document: the validator accepts exactly when the document is a JSON
object satisfying at least one of the seven discriminator conditions; a
truthy object failing all seven is rejected with HTTP 400 and body
Unsupported report; but a truthy non-object document makes the eagerly
evaluated `data.get` calls raise AttributeError (an unhandled 500), instead
of the 400 the claim asserts for every document failing the checks. -/
theorem validator_taxonomy_amended (req : Request) (tag : String)
    (db fresh : Conn) (st : DbState) (now : Nat) (data : Json)
    (hnp : probeTags.contains tag = false) (hj : req.json = some data)
    (htr : pyTruthy data = true) :
    (validate data = .ok true ↔ specAccepts data = true) ∧
    (isDict data = true → specAccepts data = false →
       reportHandler req tag db fresh st now = .ok (unsupportedResp, db, st)) ∧
    (isDict data = false →
       reportHandler req tag db fresh st now = .error .attributeError) := by
  have hred := reportHandler_nonprobe req tag db fresh st now hnp
  rw [hj] at hred
  have hp : parsedDoc (some data) = data := rfl
  rw [hp] at hred
  refine ⟨?_, ?_, ?_⟩
  · cases data with
    | obj fs => rw [validate_obj]; simp
    | null => simp [validate_nondict Json.null rfl, specAccepts]
    | bool b => simp [validate_nondict (Json.bool b) rfl, specAccepts]
    | num n => simp [validate_nondict (Json.num n) rfl, specAccepts]
    | str s => simp [validate_nondict (Json.str s) rfl, specAccepts]
    | arr xs => simp [validate_nondict (Json.arr xs) rfl, specAccepts]
  · intro hd hacc
    obtain ⟨fs, rfl⟩ : ∃ fs, data = .obj fs := by
      cases data <;> simp_all [isDict]
    rw [hred, if_neg (by simp [htr]), validate_obj, hacc]
  · intro hd
    rw [hred, if_neg (by simp [htr]), validate_nondict data hd]

/-- Witness for C1: the object with unrecognized type bogus is rejected with
400 Unsupported report. -/
theorem validator_taxonomy_amended_w :
    probeTags.contains "aaa" = false ∧
    isDict (Json.obj [("type", Json.str "bogus")]) = true ∧
    specAccepts (Json.obj [("type", Json.str "bogus")]) = false ∧
    reportHandler bogusReq "aaa" connLive connLive emptyDb 7 =
      .ok (unsupportedResp, connLive, emptyDb) :=
  ⟨rfl, rfl, rfl,
   (validator_taxonomy_amended bogusReq "aaa" connLive connLive emptyDb 7
       (Json.obj [("type", Json.str "bogus")]) rfl rfl rfl).2.1 rfl rfl⟩

/-- Counterexample for C1 as stated: the truthy non-object document `[1]`
fails all seven checks, yet the handler raises AttributeError (HTTP 500)
rather than returning 400 Unsupported report. -/
theorem validator_nondict_raises_cex :
    arrReq.json = some (Json.arr [Json.num 1]) ∧
    reportHandler arrReq "aaa" connLive connLive emptyDb 7 =
      .error .attributeError :=
  ⟨rfl, rfl⟩

/-- Claim C2 (amended).  The gateway's reconnect-and-retry protects only
cursor acquisition: an InterfaceError there triggers exactly one reconnect,
whose own failure propagates; a healthy connection executes the statement
once; but a connection-level fault raised during statement execution
propagates unrecovered, contrary to the claim's assertion that execution
faults are also retried. -/
theorem persist_retry_amended (db fresh : Conn) (st : DbState)
    (p : InsertParams) (now : Nat) :
    (db.cursorOk = true → db.execOk = true →
       persistStep db fresh st p now = .ok (db, runInsert st p now)) ∧
    (db.cursorOk = false → fresh.cursorOk = true → fresh.execOk = true →
       persistStep db fresh st p now = .ok (fresh, runInsert st p now)) ∧
    (db.cursorOk = false → fresh.cursorOk = false →
       persistStep db fresh st p now = .error .interfaceError) ∧
    (db.cursorOk = true → db.execOk = false →
       persistStep db fresh st p now = .error .operationalError) := by
  refine ⟨?_, ?_, ?_, ?_⟩ <;> intros <;> simp [persistStep, *]

/-- Witness for C2: a stale cursor is recovered by one reconnect onto the
fresh connection and the statement is executed there. -/
theorem persist_retry_amended_w :
    connCursorFault.cursorOk = false ∧ connLive.cursorOk = true ∧
    connLive.execOk = true ∧
    persistStep connCursorFault connLive emptyDb p0 7 =
      .ok (connLive, runInsert emptyDb p0 7) :=
  ⟨rfl, rfl, rfl,
   (persist_retry_amended connCursorFault connLive emptyDb p0 7).2.1
     rfl rfl rfl⟩

/-- Counterexample for C2 as stated: a connection-level fault during
statement execution propagates as a fatal error even though a reconnect
would have yielded a fully healthy connection — no retry happens. -/
theorem persist_exec_fault_cex :
    connLive.cursorOk = true ∧ connLive.execOk = true ∧
    reportHandler nelReq "aaa" connExecFault connLive emptyDb 7 =
      .error .operationalError :=
  ⟨rfl, rfl, rfl⟩

/-- Claim C4 (amended).  For non-probe tags the two rejections partition as
follows: 400 No report occurs exactly when the parsed document is falsy
(empty or unparseable body, or a parsed falsy document such as the empty
object, empty array, 0, false, empty string or null); 400 Unsupported
report occurs exactly when the document is a truthy JSON object failing all
seven discriminator checks.  (A truthy non-object raises instead, see C1.)
The claim's assertion that every parsed-but-failing document — including
the empty object — yields Unsupported report is false. -/
theorem rejection_partition_amended (req : Request) (tag : String)
    (db fresh : Conn) (st : DbState) (now : Nat)
    (hnp : probeTags.contains tag = false) :
    (reportHandler req tag db fresh st now = .ok (noReportResp, db, st) ↔
       pyTruthy (parsedDoc req.json) = false) ∧
    (reportHandler req tag db fresh st now = .ok (unsupportedResp, db, st) ↔
       pyTruthy (parsedDoc req.json) = true ∧
       isDict (parsedDoc req.json) = true ∧
       specAccepts (parsedDoc req.json) = false) := by
  have hred := reportHandler_nonprobe req tag db fresh st now hnp
  rw [hred]
  generalize parsedDoc req.json = data
  by_cases htr : pyTruthy data = false
  · rw [if_pos htr]
    constructor
    · simp [htr]
    · constructor
      · intro hcon
        exfalso
        simp [noReportResp, unsupportedResp] at hcon
      · rintro ⟨h1, -⟩
        rw [htr] at h1
        cases h1
  · have htr2 : pyTruthy data = true := by
      revert htr; cases pyTruthy data <;> simp
    rw [if_neg htr]
    cases hdict : isDict data with
    | false =>
      rw [validate_nondict data hdict]
      constructor
      · simp [htr2]
      · simp [hdict]
    | true =>
      obtain ⟨fs, rfl⟩ : ∃ fs, data = .obj fs := by
        cases data <;> simp_all [isDict]
      rw [validate_obj]
      cases hacc : specAccepts (.obj fs) with
      | false =>
        constructor
        · constructor
          · intro hcon
            exfalso
            simp [noReportResp, unsupportedResp] at hcon
          · intro h1
            rw [htr2] at h1
            cases h1
        · simp [htr2, hacc]
      | true =>
        have hne : ∀ c : Conn, ∀ s : DbState,
            Except.ok (ε := PyError) (noContentResp, c, s) ≠
              .ok (noReportResp, db, st) ∧
            Except.ok (ε := PyError) (noContentResp, c, s) ≠
              .ok (unsupportedResp, db, st) := by
          intro c s
          constructor <;> intro hcon <;>
            simp [noContentResp, noReportResp, unsupportedResp] at hcon
        cases hnf : noiseFilter (.obj fs) with
        | error e =>
          constructor <;> simp [htr2, hacc]
        | ok b =>
          cases b with
          | true =>
            constructor
            · simp [(hne db st).1, htr2]
            · simp [(hne db st).2, hacc]
          | false =>
            cases hps : persistStep db fresh st
                (mkParams req tag (.obj fs) (clientIpOf req)) now with
            | error e => constructor <;> simp [htr2, hacc]
            | ok r =>
              constructor
              · simp [(hne r.1 r.2).1, htr2]
              · simp [(hne r.1 r.2).2, hacc]

/-- Witness for C4: an empty body (parse result None) yields 400 No
report. -/
theorem rejection_partition_amended_w :
    probeTags.contains "aaa" = false ∧
    reportHandler emptyBodyReq "aaa" connLive connLive emptyDb 7 =
      .ok (noReportResp, connLive, emptyDb) :=
  ⟨rfl, (rejection_partition_amended emptyBodyReq "aaa" connLive connLive
      emptyDb 7 rfl).1.mpr rfl⟩

/-- Counterexample for C4 as stated: the body parses to the empty JSON
object — which fails the taxonomy check — yet the response is 400 No report
rather than the claimed 400 Unsupported report. -/
theorem empty_object_no_report_cex :
    emptyObjReq.json = some (Json.obj []) ∧
    reportHandler emptyObjReq "aaa" connLive connLive emptyDb 7 =
      .ok (noReportResp, connLive, emptyDb) :=
  ⟨rfl, rfl⟩

/-- Claim C3 (amended).  For an accepted report carrying a csp-report key:
when the value is a (necessarily truthy) JSON object with blocked-uri equal
to chrome-extension or source-file equal to about, the response is 204 and
the database state is unchanged; when the value is an object matching
neither condition, or is falsy, the report proceeds to persistence; but
when the value is truthy and not an object, the filter's chained `.get`
raises AttributeError instead of proceeding to persistence as the claim
asserts for all other CSP reports. -/
theorem noise_filter_amended (req : Request) (tag : String) (db fresh : Conn)
    (st : DbState) (now : Nat) (fs : List (String × Json)) (csp : Json)
    (hnp : probeTags.contains tag = false)
    (hj : req.json = some (.obj fs))
    (hcsp : List.lookup "csp-report" fs = some csp)
    (hacc : specAccepts (.obj fs) = true) :
    (∀ cfs, csp = .obj cfs →
       ((jeqStr (List.lookup "blocked-uri" cfs) "chrome-extension" ||
         jeqStr (List.lookup "source-file" cfs) "about") = true →
          reportHandler req tag db fresh st now =
            .ok (noContentResp, db, st)) ∧
       (pyTruthy csp = true →
        (jeqStr (List.lookup "blocked-uri" cfs) "chrome-extension" ||
         jeqStr (List.lookup "source-file" cfs) "about") = false →
          reportHandler req tag db fresh st now =
            Except.map (fun r => (noContentResp, r.1, r.2))
              (persistStep db fresh st
                (mkParams req tag (.obj fs) (clientIpOf req)) now))) ∧
    (pyTruthy csp = false →
       reportHandler req tag db fresh st now =
         Except.map (fun r => (noContentResp, r.1, r.2))
           (persistStep db fresh st
             (mkParams req tag (.obj fs) (clientIpOf req)) now)) ∧
    (pyTruthy csp = true → isDict csp = false →
       reportHandler req tag db fresh st now = .error .attributeError) := by
  have htr : pyTruthy (Json.obj fs) = true := pyTruthy_of_lookup hcsp
  have hred := reportHandler_nonprobe req tag db fresh st now hnp
  rw [hj] at hred
  simp only [parsedDoc] at hred
  rw [if_neg (by simp [htr]), validate_obj, hacc] at hred
  refine ⟨?_, ?_, ?_⟩
  · intro cfs hobj
    subst hobj
    constructor
    · intro hhit
      have htrc : pyTruthy (Json.obj cfs) = true := by
        have hor := hhit
        rw [Bool.or_eq_true] at hor
        rcases hor with h1 | h1 <;>
          exact pyTruthy_of_lookup (jeqStr_true h1)
      rw [noiseFilter_obj fs cfs hcsp htrc, hhit] at hred
      exact hred
    · intro htrc hmiss
      rw [noiseFilter_obj fs cfs hcsp htrc, hmiss] at hred
      rw [hred]
      cases hps : persistStep db fresh st
          (mkParams req tag (.obj fs) (clientIpOf req)) now with
      | error e => simp [Except.map]
      | ok r => simp [Except.map]
  · intro hf
    rw [noiseFilter_falsy fs csp hcsp hf] at hred
    rw [hred]
    cases hps : persistStep db fresh st
        (mkParams req tag (.obj fs) (clientIpOf req)) now with
    | error e => simp [Except.map]
    | ok r => simp [Except.map]
  · intro ht hd
    rw [noiseFilter_nondict fs csp hcsp ht hd] at hred
    exact hred

/-- Witness for C3: a CSP report whose blocked-uri is chrome-extension gets
204 with the database unchanged. -/
theorem noise_filter_amended_w :
    List.lookup "csp-report"
        [("csp-report",
          Json.obj [("blocked-uri", Json.str "chrome-extension")])] =
      some (Json.obj [("blocked-uri", Json.str "chrome-extension")]) ∧
    reportHandler noiseReq "csp" connLive connLive emptyDb 7 =
      .ok (noContentResp, connLive, emptyDb) :=
  ⟨rfl,
   ((noise_filter_amended noiseReq "csp" connLive connLive emptyDb 7
       [("csp-report",
         Json.obj [("blocked-uri", Json.str "chrome-extension")])]
       (Json.obj [("blocked-uri", Json.str "chrome-extension")])
       rfl rfl rfl rfl).1
     [("blocked-uri", Json.str "chrome-extension")] rfl).1 rfl⟩

/-- Counterexample for C3 as stated: an accepted CSP report whose csp-report
value is the number 5 matches neither noise condition, so by the claim it
should proceed to persistence; instead the handler raises AttributeError. -/
theorem noise_filter_nonobject_cex :
    specAccepts (Json.obj [("csp-report", Json.num 5)]) = true ∧
    reportHandler cspNumReq "csp" connLive connLive emptyDb 7 =
      .error .attributeError :=
  ⟨rfl, rfl⟩

/-- Claim C5 (amended).  Charset handling for probe bodies: when the
Content-Type header is absent or lacks the substring charset, UTF-8 is used;
when the header contains charset, the text after the first equals sign is
taken as the codec name — if the header has no equals sign at all an
IndexError is raised, and decoding then proceeds only for a known codec
name (an unknown name raises LookupError despite the replace handler; only
invalid byte sequences, not codec names, are replaced).  The claim's
assertion that decoding terminates without raising for every header value
is false. -/
theorem charset_decoding_amended (hs : List (String × String))
    (body : List Nat) (cs : String) :
    (hget hs "Content-Type" = none → charsetOf hs = .ok "utf-8") ∧
    (∀ ct, hget hs "Content-Type" = some ct → pyInStr "charset" ct = false →
       charsetOf hs = .ok "utf-8") ∧
    (∀ ct s, hget hs "Content-Type" = some ct →
       pyInStr "charset" ct = true →
       (pySplitEq ct).get? 1 = some s → charsetOf hs = .ok s) ∧
    (∀ ct, hget hs "Content-Type" = some ct → pyInStr "charset" ct = true →
       (pySplitEq ct).get? 1 = none → charsetOf hs = .error .indexError) ∧
    (knownCodec cs = true → ∃ s, codecsDecode body cs = .ok s) ∧
    (knownCodec cs = false → codecsDecode body cs = .error .lookupError) := by
  refine ⟨?_, ?_, ?_, ?_, ?_, ?_⟩
  · intro h
    simp [charsetOf, h]
  · intro ct h hin
    simp [charsetOf, h, hin]
  · intro ct s h hin hg
    have hne := pyInStr_charset_ne_empty hin
    rw [List.get?_eq_getElem?] at hg
    simp [charsetOf, h, hin, hne, hg]
  · intro ct h hin hg
    have hne := pyInStr_charset_ne_empty hin
    rw [List.get?_eq_getElem?] at hg
    simp [charsetOf, h, hin, hne, hg]
  · intro h
    exact ⟨decodedText body, by simp [codecsDecode, h]⟩
  · intro h
    simp [codecsDecode, h]

/-- Witness for C5: a well-formed charset parameter is extracted and a known
codec decodes without raising. -/
theorem charset_decoding_amended_w :
    pyInStr "charset" "a; charset=utf-8" = true ∧
    (pySplitEq "a; charset=utf-8").get? 1 = some "utf-8" ∧
    charsetOf [("Content-Type", "a; charset=utf-8")] = .ok "utf-8" ∧
    (∃ s, codecsDecode [72] "utf-8" = .ok s) :=
  ⟨rfl, rfl,
   (charset_decoding_amended [("Content-Type", "a; charset=utf-8")]
       [72] "utf-8").2.2.1 "a; charset=utf-8" "utf-8" rfl rfl rfl,
   (charset_decoding_amended [("Content-Type", "a; charset=utf-8")]
       [72] "utf-8").2.2.2.2.1 rfl⟩

/-- Counterexample for C5 as stated: the header value contains charset but
no equals sign, so the probe request raises IndexError instead of decoding
with best-effort text as the claim asserts for every header value. -/
theorem charset_no_equals_cex :
    pyInStr "charset" "text/plain; charset" = true ∧
    reportHandler csReq "xss" connLive connLive emptyDb 7 =
      .error .indexError :=
  ⟨rfl, rfl⟩

/-- Claim C6 (amended).  An accepted, non-noise document is persisted
unchanged — fields beyond the discriminator key are not type-checked and the
whole document is stored as-is in the fact row; except that a document whose
csp-report key holds a truthy non-object value makes the noise filter's
chained `.get` raise AttributeError, so such a document is neither stored
nor answered, contrary to the claim that the pipeline never raises on
malformed nested structures. -/
theorem stored_as_is_amended (req : Request) (tag : String) (db fresh : Conn)
    (st : DbState) (now : Nat) (data : Json)
    (hnp : probeTags.contains tag = false) (hj : req.json = some data)
    (htr : pyTruthy data = true) (hv : validate data = .ok true) :
    (noiseFilter data = .ok false → db.cursorOk = true → db.execOk = true →
       reportHandler req tag db fresh st now =
         .ok (noContentResp, db,
              runInsert st (mkParams req tag data (clientIpOf req)) now) ∧
       ∃ uaId tagId,
         (runInsert st (mkParams req tag data (clientIpOf req)) now).facts =
           st.facts ++ [{ data := data, date := now, ip := clientIpOf req,
                          user_agent_id := uaId, tag_id := tagId }]) ∧
    (∀ fs v, data = .obj fs → List.lookup "csp-report" fs = some v →
       pyTruthy v = true → isDict v = false →
       reportHandler req tag db fresh st now = .error .attributeError) := by
  have hred := reportHandler_nonprobe req tag db fresh st now hnp
  rw [hj] at hred
  simp only [parsedDoc] at hred
  rw [if_neg (by simp [htr]), hv] at hred
  constructor
  · intro hnf hc he
    rw [hnf, persistStep_ok db fresh st _ now hc he] at hred
    exact ⟨hred, _, _,
      runInsert_facts st (mkParams req tag data (clientIpOf req)) now⟩
  · intro fs v hdeq hl hvt hvd
    subst hdeq
    rw [noiseFilter_nondict fs v hl hvt hvd] at hred
    exact hred

/-- Witness for C6: an Expect-CT report with a nested object is persisted
exactly as received. -/
theorem stored_as_is_amended_w :
    validate ectDoc = .ok true ∧
    (reportHandler ectReq "ect" connLive connLive emptyDb 7 =
       .ok (noContentResp, connLive,
            runInsert emptyDb
              (mkParams ectReq "ect" ectDoc (clientIpOf ectReq)) 7) ∧
     ∃ uaId tagId,
       (runInsert emptyDb
           (mkParams ectReq "ect" ectDoc (clientIpOf ectReq)) 7).facts =
         emptyDb.facts ++
           [{ data := ectDoc, date := 7, ip := clientIpOf ectReq,
              user_agent_id := uaId, tag_id := tagId }]) :=
  ⟨rfl, (stored_as_is_amended ectReq "ect" connLive connLive emptyDb 7
      ectDoc rfl rfl rfl rfl).1 rfl rfl rfl⟩

/-- Counterexample for C6 as stated: a document whose csp-report key holds
the truthy non-object string x is accepted, but the pipeline raises
AttributeError instead of completing and persisting it unchanged. -/
theorem csp_string_raises_cex :
    specAccepts (Json.obj [("csp-report", Json.str "x")]) = true ∧
    reportHandler cspStrReq "csp" connLive connLive emptyDb 7 =
      .error .attributeError :=
  ⟨rfl, rfl⟩

/-- Claim C7 (amended).  Only the 404 handler and the robots.txt handler
attach the X-Robots-Tag and Content-Security-Policy headers; every response
built by the report endpoint (204 success, 400 No report, 400 Unsupported
report) is created without the HEADERS constant and carries no custom
headers, contrary to the claim that all responses carry both headers. -/
theorem security_headers_amended (req : Request) (tag : String)
    (db fresh : Conn) (st : DbState) (now : Nat) :
    notFoundResp.headers = HEADERS ∧ robotsResp.headers = HEADERS ∧
    (∀ r, reportHandler req tag db fresh st now = .ok r →
       r.1.headers = []) := by
  refine ⟨rfl, rfl, ?_⟩
  intro r h
  unfold reportHandler at h
  repeat' split at h
  all_goals first
    | exact Except.noConfusion h
    | (injection h with h2; subst h2; rfl)

/-- Witness for C7: a successful 204 run of the report endpoint produces a
response with an empty header list. -/
theorem security_headers_amended_w :
    reportHandler nelReq "aaa" connLive connLive emptyDb 7 =
      .ok (noContentResp, connLive,
           runInsert emptyDb
             (mkParams nelReq "aaa" (parsedDoc nelReq.json)
               (clientIpOf nelReq)) 7) ∧
    (noContentResp, connLive,
     runInsert emptyDb
       (mkParams nelReq "aaa" (parsedDoc nelReq.json)
         (clientIpOf nelReq)) 7).1.headers = [] :=
  ⟨rfl, (security_headers_amended nelReq "aaa" connLive connLive emptyDb
      7).2.2 _ rfl⟩

/-- Counterexample for C7 as stated: a successful report response carries
neither X-Robots-Tag nor Content-Security-Policy. -/
theorem report_response_headers_cex :
    reportHandler nelReq "aaa" connLive connLive emptyDb 7 =
      .ok (noContentResp, connLive,
           runInsert emptyDb
             (mkParams nelReq "aaa" (parsedDoc nelReq.json)
               (clientIpOf nelReq)) 7) ∧
    List.lookup "X-Robots-Tag" noContentResp.headers = none ∧
    List.lookup "Content-Security-Policy" noContentResp.headers = none :=
  ⟨rfl, rfl, rfl⟩

/-- Claim C9.  The recorded client_ip is the X-Real-Ip header whenever that
header is present with a non-empty value and the transport-level peer
address otherwise, and the recorded user_agent is the raw User-Agent header
value (absent when the header is not sent); the INSERT parameters carry
exactly these values. -/
theorem metadata_extraction (req : Request) (tag : String) (data : Json) :
    (hget req.headers "X-Real-Ip" = none → clientIpOf req = req.ip) ∧
    (hget req.headers "X-Real-Ip" = some "" → clientIpOf req = req.ip) ∧
    (∀ v, hget req.headers "X-Real-Ip" = some v → v ≠ "" →
       clientIpOf req = v) ∧
    (mkParams req tag data (clientIpOf req)).ip = clientIpOf req ∧
    (mkParams req tag data (clientIpOf req)).ua =
      hget req.headers "User-Agent" := by
  refine ⟨?_, ?_, ?_, rfl, rfl⟩ <;> intros <;> simp_all [clientIpOf]

/-- Witness for C9: a non-empty X-Real-Ip header overrides the peer
address. -/
theorem metadata_extraction_w :
    hget xrReq.headers "X-Real-Ip" = some "1.2.3.4" ∧
    clientIpOf xrReq = "1.2.3.4" :=
  ⟨rfl, (metadata_extraction xrReq "aaa" Json.null).2.2.1 "1.2.3.4" rfl
    (by decide)⟩

/-- Claim C8.  For a probe tag (magick, xxe, xss) the classifier builds a
synthetic report of exactly the shape headers / type / body — the body the
decoded POST payload or the GET query parameters — never reads the JSON
parse of the body (the handler's outcome is independent of it), and such a
request is never rejected by the taxonomy check (no 400 outcome exists). -/
theorem probe_synthetic_report (req : Request) (tag : String)
    (db fresh : Conn) (st : DbState) (now : Nat)
    (h : probeTags.contains tag = true) :
    (∀ d, classify req tag = .ok d →
       d = .obj [("headers", headersJson req.headers), ("type", .str tag),
                 ("body", match req.method with
                          | .post => .str (decodedText req.body)
                          | .get => argsJson req.args)]) ∧
    (∀ j, reportHandler { req with json := j } tag db fresh st now =
       reportHandler req tag db fresh st now) ∧
    (∀ r, reportHandler req tag db fresh st now = .ok r →
       r.1.status ≠ 400) := by
  have hshape : ∀ d, classify req tag = .ok d →
      d = .obj [("headers", headersJson req.headers), ("type", .str tag),
                ("body", match req.method with
                         | .post => .str (decodedText req.body)
                         | .get => argsJson req.args)] := by
    intro d hd
    unfold classify at hd
    rw [h] at hd
    simp only [if_true] at hd
    cases hcs : charsetOf req.headers with
    | error e => rw [hcs] at hd; exact Except.noConfusion hd
    | ok cs =>
      rw [hcs] at hd
      cases hm : req.method with
      | get =>
        rw [hm] at hd
        injection hd with hd2
        rw [← hd2]
      | post =>
        rw [hm] at hd
        by_cases hk : knownCodec cs
        · simp only [codecsDecode, hk, if_true, Except.map] at hd
          injection hd with hd2
          rw [← hd2]
        · simp only [codecsDecode, hk, if_false, Except.map] at hd
          exact Except.noConfusion hd
  refine ⟨hshape, ?_, ?_⟩
  · intro j
    have hcl : classify { req with json := j } tag = classify req tag := by
      unfold classify
      rw [h]
      rfl
    unfold reportHandler
    rw [hcl]
    rfl
  · intro r hr
    cases hc : classify req tag with
    | error e =>
      unfold reportHandler at hr
      rw [hc] at hr
      exact Except.noConfusion hr
    | ok data =>
      have hD := hshape data hc
      subst hD
      have htr : pyTruthy (Json.obj
          [("headers", headersJson req.headers), ("type", Json.str tag),
           ("body", match req.method with
                    | .post => .str (decodedText req.body)
                    | .get => argsJson req.args)]) = true := rfl
      have hval : validate (Json.obj
          [("headers", headersJson req.headers), ("type", Json.str tag),
           ("body", match req.method with
                    | .post => .str (decodedText req.body)
                    | .get => argsJson req.args)]) = .ok true := by
        have h1 : validate (Json.obj
            [("headers", headersJson req.headers), ("type", Json.str tag),
             ("body", match req.method with
                      | .post => .str (decodedText req.body)
                      | .get => argsJson req.args)]) =
            .ok (jstrIn (some (Json.str tag)) probeTags ||
                 jstrIn (some (Json.str tag))
                   ["deprecation", "intervention", "crash"] ||
                 jeqStr (some (Json.str tag)) "network-error" ||
                 jeqStr (some (Json.str tag)) "feature-policy-violation" ||
                 truthyOpt none || truthyOpt none || truthyOpt none) := rfl
        have h2 : jstrIn (some (Json.str tag)) probeTags = true := h
        rw [h1, h2]
        exact rfl
      have hnf : noiseFilter (Json.obj
          [("headers", headersJson req.headers), ("type", Json.str tag),
           ("body", match req.method with
                    | .post => .str (decodedText req.body)
                    | .get => argsJson req.args)]) = .ok false := rfl
      have hrun : reportHandler req tag db fresh st now =
          Except.map (fun p => (noContentResp, p.1, p.2))
            (persistStep db fresh st
              (mkParams req tag
                (Json.obj
                  [("headers", headersJson req.headers),
                   ("type", Json.str tag),
                   ("body", match req.method with
                            | .post => .str (decodedText req.body)
                            | .get => argsJson req.args)])
                (clientIpOf req)) now) := by
        rw [reportHandler_classified req tag db fresh st now _ hc,
          if_neg (by simp [htr]), hval, hnf]
        cases persistStep db fresh st
            (mkParams req tag _ (clientIpOf req)) now with
        | error e => rfl
        | ok p => rfl
      rw [hrun] at hr
      cases hps : persistStep db fresh st
          (mkParams req tag
            (Json.obj
              [("headers", headersJson req.headers),
               ("type", Json.str tag),
               ("body", match req.method with
                        | .post => .str (decodedText req.body)
                        | .get => argsJson req.args)])
            (clientIpOf req)) now with
      | error e =>
        rw [hps] at hr
        exact Except.noConfusion hr
      | ok p =>
        rw [hps] at hr
        have hr2 : Except.ok (ε := PyError) (noContentResp, p.1, p.2) =
            Except.ok r := hr
        injection hr2 with hr3
        rw [← hr3]
        simp [noContentResp]

/-- Witness for C8: a GET probe produces the same outcome whatever the JSON
parse of its body would have been. -/
theorem probe_synthetic_report_w :
    probeTags.contains "xss" = true ∧
    reportHandler { probeReq with json := some Json.null } "xss" connLive
        connLive emptyDb 7 =
      reportHandler probeReq "xss" connLive connLive emptyDb 7 :=
  ⟨rfl, (probe_synthetic_report probeReq "xss" connLive connLive emptyDb 7
      rfl).2.1 (some Json.null)⟩

/-- Claim C10.  The dimension upsert is idempotent for both dimensions:
re-running it for an already-seen user-agent value, or for an already-seen
tag, neither duplicates the dimension row nor changes its identifier (the
re-run returns the same identifier and leaves the state unchanged, and a
tag present at most once still has exactly one row after the upsert); and
two inserts with the same user agent under different tags leave exactly one
matching user-agent dimension row, referenced by the two appended fact rows
through equal user_agent_id keys. -/
theorem dimension_upsert_idempotent (st : DbState)
    (ua tag1 tag2 ip1 ip2 : String) (d1 d2 : Json) (n1 n2 : Nat)
    (h : (st.uas.filter (fun r => r.2 == some ua)).length ≤ 1)
    (htag : (st.tags.filter (fun r => r.2 == tag1)).length ≤ 1) :
    upsertUa (upsertUa st (some ua)).2 (some ua) = upsertUa st (some ua) ∧
    upsertTag (upsertTag st tag1).2 tag1 = upsertTag st tag1 ∧
    ((upsertTag st tag1).2.tags.filter (fun r => r.2 == tag1)).length = 1 ∧
    ((runInsert (runInsert st ⟨d1, tag1, ip1, some ua⟩ n1)
        ⟨d2, tag2, ip2, some ua⟩ n2).uas.filter
        (fun r => r.2 == some ua)).length = 1 ∧
    ∃ r1 r2,
      (runInsert (runInsert st ⟨d1, tag1, ip1, some ua⟩ n1)
          ⟨d2, tag2, ip2, some ua⟩ n2).facts = st.facts ++ [r1, r2] ∧
      r1.user_agent_id = r2.user_agent_id := by
  have hu1 : (runInsert st ⟨d1, tag1, ip1, some ua⟩ n1).uas =
      (upsertUa st (some ua)).2.uas := runInsert_uas st _ n1
  obtain ⟨hid, hsame⟩ :=
    upsertUa_stable st (runInsert st ⟨d1, tag1, ip1, some ua⟩ n1) ua hu1
  refine ⟨upsertUa_idem st ua, upsertTag_idem st tag1,
    upsertTag_count st tag1 htag, ?_, ?_⟩
  · rw [runInsert_uas, hsame, hu1]
    exact upsertUa_count st ua h
  · refine
      ⟨{ data := d1, date := n1, ip := ip1,
         user_agent_id := (upsertUa st (some ua)).1,
         tag_id := (upsertTag (upsertUa st (some ua)).2 tag1).1 },
       { data := d2, date := n2, ip := ip2,
         user_agent_id :=
           (upsertUa (runInsert st ⟨d1, tag1, ip1, some ua⟩ n1) (some ua)).1,
         tag_id :=
           (upsertTag
             (upsertUa (runInsert st ⟨d1, tag1, ip1, some ua⟩ n1)
               (some ua)).2
             tag2).1 },
       ?_, ?_⟩
    · rw [runInsert_facts, runInsert_facts, List.append_assoc]
      rfl
    · simpa using hid.symm

/-- Witness for C10: two inserts with the same user agent under tags t1 and
t2 starting from the empty database, with both dimension upserts
idempotent. -/
theorem dimension_upsert_idempotent_w :
    ((emptyDb.uas.filter (fun r => r.2 == some "Moz")).length ≤ 1 ∧
     (emptyDb.tags.filter (fun r => r.2 == "t1")).length ≤ 1) ∧
    (upsertUa (upsertUa emptyDb (some "Moz")).2 (some "Moz") =
       upsertUa emptyDb (some "Moz") ∧
     upsertTag (upsertTag emptyDb "t1").2 "t1" = upsertTag emptyDb "t1" ∧
     ((upsertTag emptyDb "t1").2.tags.filter
         (fun r => r.2 == "t1")).length = 1 ∧
     ((runInsert (runInsert emptyDb ⟨Json.null, "t1", "ip1", some "Moz"⟩ 3)
         ⟨Json.null, "t2", "ip2", some "Moz"⟩ 4).uas.filter
         (fun r => r.2 == some "Moz")).length = 1 ∧
     ∃ r1 r2,
       (runInsert (runInsert emptyDb ⟨Json.null, "t1", "ip1", some "Moz"⟩ 3)
           ⟨Json.null, "t2", "ip2", some "Moz"⟩ 4).facts =
         emptyDb.facts ++ [r1, r2] ∧ r1.user_agent_id = r2.user_agent_id) :=
  ⟨⟨by decide, by decide⟩,
   dimension_upsert_idempotent emptyDb "Moz" "t1" "t2" "ip1" "ip2"
     Json.null Json.null 3 4 (by decide) (by decide)⟩
